import Mathlib

/-!
Verification development for the ghost-in-shells conversational-task
orchestration engine.  The definitions below are shallow embeddings of the
Python sources (paths given on each definition); theorems settle the claims
about them.  Python exceptions are modelled with `Except`, Python `None`
with `Option`, insertion-ordered dicts with association lists.
-/

namespace Ghoshell

/-- Python-level failures raised by the embedded code: `IndexError`,
`AttributeError`, `FileNotFoundError`, the repo's `ErrMessageException`
(InvalidInput, carrying the parser message), `MindsetNotFoundException`,
`RuntimeException`, and — from the argparse boundary — `TypeError`
(raised by `add_argument()` when given no flag strings) and
`argparse.ArgumentError` (which `exit_on_error=False` lets escape the
parse uncaught). -/
inductive PyErr where
  | indexError : PyErr
  | attributeError (attr : String) : PyErr
  | fileNotFound (path : String) : PyErr
  | errMessage (msg : String) : PyErr
  | mindsetNotFound : PyErr
  | runtimeError : PyErr
  | typeError (msg : String) : PyErr
  | argumentError (msg : String) : PyErr
deriving DecidableEq, Repr

/-- Whether a failure is the repo's own InvalidInput
(`ErrMessageException`); `TypeError` and `argparse.ArgumentError` are
foreign exception types that the command driver neither creates nor
catches. -/
def PyErr.isInvalidInput : PyErr → Bool
  | PyErr.errMessage _ => true
  | _ => false

instance {ε α : Type} [DecidableEq ε] [DecidableEq α] : DecidableEq (Except ε α) := fun x y =>
  match x, y with
  | .ok a, .ok b =>
    if h : a = b then .isTrue (by rw [h]) else .isFalse (by simp [h])
  | .ok _, .error _ => .isFalse (by simp)
  | .error _, .ok _ => .isFalse (by simp)
  | .error e, .error f =>
    if h : e = f then .isTrue (by rw [h]) else .isFalse (by simp [h])

/-- Modelled from the spec: the `TaskStatus` scalar constants of
`ghoshell/ghost/runtime.py`, which is not under src/.  Their usage in src/
(`status: ClassVar[int]` in operators.py, plain assignments and `==`
comparisons) shows they are scalar int values, not sequences. -/
inductive TaskStatus where
  | NEW | RUNNING | WAITING | DEPENDING | YIELDING
  | PREEMPTING | CANCELING | FAILING | FINISHED | DEAD
deriving DecidableEq, Repr

/-- Modelled from the spec: `TaskStatus.is_final` (runtime.py is not under
src/): FINISHED and DEAD are the terminal statuses. -/
def TaskStatus.is_final (s : TaskStatus) : Bool :=
  s = TaskStatus.FINISHED ∨ s = TaskStatus.DEAD

/-- Modelled from the spec: the `TaskLevel` constants of runtime.py (not
under src/), named as in the sources that use them. -/
inductive TaskLevel where
  | LEVEL_PUBLIC | LEVEL_PROTECTED | LEVEL_PRIVATE
deriving DecidableEq, Repr

/-- ghoshell/ghost/url.py `UniformResolverLocator`: resolver + stage +
args.  Args are modelled as an association list of strings. -/
structure URL where
  resolver : String
  stage : String := ""
  args : List (String × String) := []
deriving DecidableEq, Repr

/-- ghoshell/ghost/url.py `URL.to_stage`: copy with a new stage, same args. -/
def URL.to_stage (u : URL) (stage : String) : URL :=
  { resolver := u.resolver, stage := stage, args := u.args }

/-- ghoshell/ghost/mindset/intention.py `Intention`: kind-tagged match
descriptor.  `config` is kept as an opaque string payload; `url` is the
attribute `CtxTool._add_task_intentions` assigns on a matched candidate. -/
structure Intention where
  kind : String
  config : String := ""
  target : Option URL := none
  reaction : Option String := none
  url : Option URL := none
deriving DecidableEq, Repr

/-- Modelled from the spec: the persisted `Task` of runtime.py (not under
src/), restricted to the fields the embedded operators read: id, current
url, status, level and the routers/attentions URL list (Python `None` and
`[]` are both falsy there, so one empty list models both). -/
structure Task where
  tid : String
  url : URL
  status : TaskStatus := TaskStatus.NEW
  level : TaskLevel := TaskLevel.LEVEL_PUBLIC
  attentions : List URL := []
deriving DecidableEq, Repr

/-- Modelled from the spec: `Task.restart()` (runtime.py not under src/)
resets a task to RUNNING at the entry stage with a freshly prepared
Thought; only the runtime fields matter here. -/
def Task.restart (t : Task) : Task :=
  { t with status := TaskStatus.RUNNING, url := { t.url with stage := "" } }

/-! ### ActivateOperator (ghoshell/ghost_fmk/operators.py lines 295-349)

`ActivateOperator._run_operation` dispatches with a Python `match` on
`task.status`.  Python `case` arms of the form `case A, B:` are sequence
patterns (they match a 2-element sequence whose items equal A and B), not
unions; the embedding keeps the source's four arms with Python's pattern
semantics made explicit over a scrutinee value that is either a scalar
status or a sequence of statuses. -/

/-- A Python value as far as the `match` scrutinee is concerned: the
scalar `task.status`, or a sequence (which `task.status` never is). -/
inductive PyVal where
  | scalar (s : TaskStatus)
  | sequence (xs : List TaskStatus)
deriving DecidableEq, Repr

/-- Python value pattern `case TaskStatus.X:` — equality with the scalar. -/
def valuePatternMatch (pat : TaskStatus) (v : PyVal) : Bool :=
  v = PyVal.scalar pat

/-- Python sequence pattern `case TaskStatus.X, TaskStatus.Y:` — matches
only a sequence of exactly these element values, never a scalar. -/
def sequencePatternMatch (pats : List TaskStatus) (v : PyVal) : Bool :=
  match v with
  | PyVal.scalar _ => false
  | PyVal.sequence xs => xs = pats

/-- The event `ActivateOperator._run_operation` fires. -/
inductive ActivateOutcome where
  | fireActivating (tid : String) (stage : String)
  | firePreempted (tid : String) (stage : String)
deriving DecidableEq, Repr

/-- ghoshell/ghost_fmk/operators.py lines 305-340,
`ActivateOperator._run_operation` after the task fetch: returns the stored
task and the event fired.  Arm 1 `case TaskStatus.NEW:` marks RUNNING and
fires Activating at `self.to.stage`; arm 2
`case TaskStatus.FINISHED, TaskStatus.DEAD:` restarts then fires
Activating; arm 3 `case TaskStatus.PREEMPTING, TaskStatus.DEPENDING,
TaskStatus.YIELDING:` fires Preempted at `task.url.stage`; the catch-all
fires Activating.  Arms 2 and 3 are sequence patterns (see above). -/
def activateRunOperation (task : Task) (toStage : String) : Task × ActivateOutcome :=
  let scrutinee := PyVal.scalar task.status
  if valuePatternMatch TaskStatus.NEW scrutinee then
    let task := { task with status := TaskStatus.RUNNING }
    (task, ActivateOutcome.fireActivating task.tid toStage)
  else if sequencePatternMatch [TaskStatus.FINISHED, TaskStatus.DEAD] scrutinee then
    let task := task.restart
    (task, ActivateOutcome.fireActivating task.tid toStage)
  else if sequencePatternMatch
      [TaskStatus.PREEMPTING, TaskStatus.DEPENDING, TaskStatus.YIELDING] scrutinee then
    (task, ActivateOutcome.firePreempted task.tid task.url.stage)
  else
    (task, ActivateOutcome.fireActivating task.tid toStage)

/-! ### ScheduleOperator (ghoshell/ghost_fmk/operators.py lines 623-675) -/

/-- The process state `ScheduleOperator._run_operation` consults.
`fallbackTask` is the value of `process.fallback()` (Modelled from the
spec: runtime.py is not under src/; `fallback()` returns the next task the
scheduler should visit, or nothing). -/
structure SchedProcess where
  root : String
  canceling : List String := []
  failing : List String := []
  quiting : Bool := false
  parent_id : Option String := none
  fallbackTask : Option Task := none
deriving DecidableEq, Repr

/-- The continuation operator / event `ScheduleOperator._run_operation`
selects. -/
inductive ScheduleOutcome where
  | cancelOp (tid : String)
  | failOp (tid : String)
  | quitOp (tid : String)
  | forwardOp (tid : String)
  | preemptOp (tid : String)
deriving DecidableEq, Repr

/-- ghoshell/ghost_fmk/operators.py lines 628-663,
`ScheduleOperator._run_operation`: first element of `process.canceling`
then of `process.failing` wins; otherwise the source executes
`tid = fallback.tid` BEFORE the `if fallback is not None:` guard, so a
missing fallback raises `AttributeError` on the attribute `tid` and the
code after the guard never runs.  With a fallback present: quiting
processes Quit it, RUNNING tasks are Forwarded, anything else Preempted. -/
def scheduleRunOperation (p : SchedProcess) : Except PyErr ScheduleOutcome :=
  match p.canceling with
  | c0 :: _ => Except.ok (ScheduleOutcome.cancelOp c0)
  | [] =>
    match p.failing with
    | f0 :: _ => Except.ok (ScheduleOutcome.failOp f0)
    | [] =>
      match p.fallbackTask with
      | none => Except.error (PyErr.attributeError "tid")
      | some fb =>
        if p.quiting then Except.ok (ScheduleOutcome.quitOp fb.tid)
        else if fb.status = TaskStatus.RUNNING then Except.ok (ScheduleOutcome.forwardOp fb.tid)
        else Except.ok (ScheduleOutcome.preemptOp fb.tid)

/-- What ghoshell/ghost_fmk/operators.py lines 650-663 intend for the
no-fallback path (re-preempt a WAITING root; notify the parent when root
is final; mark the process quiting).  Every execution path above either
returns or raises first, so this tail is unreachable in the source; it is
embedded separately to document what the dead code would compute. -/
inductive ScheduleTailOutcome where
  | preemptRoot
  | finishRound (notifiedParent : Bool)
deriving DecidableEq, Repr

/-- The unreachable tail of `ScheduleOperator._run_operation` (lines
650-663), as a function of the root task status and the parent id. -/
def scheduleUnreachableTail (rootStatus : TaskStatus) (parent : Option String) :
    ScheduleTailOutcome :=
  if rootStatus = TaskStatus.WAITING then ScheduleTailOutcome.preemptRoot
  else ScheduleTailOutcome.finishRound (rootStatus.is_final && parent.isSome)

/-! ### CtxTool aggregation (ghoshell/ghost/tool.py lines 89-196) -/

/-- The slice of Context/Runtime state `CtxTool.context_intentions` and
`CtxTool.context_attentions` read: the current process ids (root,
awaiting, blocking, waiting — Modelled from the spec: `Process` of
runtime.py is not under src/), the task store (`runtime.fetch_task` and
`process.get_task` resolve ids in it), and the mindset's
`(resolver, stage) -> stage.intentions(ctx)` table used by
`CtxTool.force_fetch_stage`; a missing `(resolver, stage)` entry models
the MindsetNotFoundException raise. -/
structure CtxModel where
  root : String
  awaiting : String
  blocking : List String := []
  waiting : List String := []
  tasks : List Task := []
  stages : List (String × String × List Intention) := []

/-- Task lookup by id (`runtime.fetch_task` / `process.get_task`). -/
def CtxModel.getTask (c : CtxModel) (tid : String) : Option Task :=
  c.tasks.find? (fun t => t.tid == tid)

/-- ghoshell/ghost/tool.py `CtxTool.force_fetch_stage` followed by
`stage.intentions(ctx)`: none models the MindsetNotFoundException,
`some []` a stage that declares no intentions. -/
def CtxModel.fetchStageIntentions (c : CtxModel) (resolver stage : String) :
    Option (List Intention) :=
  (c.stages.find? (fun e => e.1 == resolver && e.2.1 == stage)).map (fun e => e.2.2)

/-- ghoshell/ghost/tool.py `RuntimeTool.fetch_root_task`: RuntimeException
when the root task is missing from the store. -/
def fetchRootTask (c : CtxModel) : Except PyErr Task :=
  match c.getTask c.root with
  | none => Except.error PyErr.runtimeError
  | some t => Except.ok t

/-- ghoshell/ghost/tool.py `RuntimeTool.fetch_awaiting_task`. -/
def fetchAwaitingTask (c : CtxModel) : Except PyErr Task :=
  match c.getTask c.awaiting with
  | none => Except.error PyErr.runtimeError
  | some t => Except.ok t

/-- `process.get_task(tid)` as used inside the aggregation loops: a
missing task is passed to `_add_task_intentions`, whose first attribute
access `task.attentions` then raises AttributeError. -/
def getTaskE (c : CtxModel) (tid : String) : Except PyErr Task :=
  match c.getTask tid with
  | none => Except.error (PyErr.attributeError "attentions")
  | some t => Except.ok t

/-- The insertion-ordered `Dict[str, List[Intention]]` the aggregations
build: appending to an existing kind keeps its position, a new kind goes
to the end (Python dict semantics). -/
def attMapAdd : List (String × List Intention) → String → Intention →
    List (String × List Intention)
  | [], kind, i => [(kind, [i])]
  | (k, l) :: rest, kind, i =>
    if k = kind then (k, l ++ [i]) :: rest
    else (k, l) :: attMapAdd rest kind i

/-- The body of `_add_task_intentions`' per-url loop (tool.py lines
180-196): fetch the stage (raising if absent), skip when it declares no
intentions, set each intention's `url` attribute to the contributing url
and append it under its kind. -/
def addIntentionsOfUrl (c : CtxModel) (result : List (String × List Intention))
    (url : URL) : Except PyErr (List (String × List Intention)) :=
  match c.fetchStageIntentions url.resolver url.stage with
  | none => Except.error PyErr.mindsetNotFound
  | some intentions =>
    Except.ok (intentions.foldl
      (fun r i => attMapAdd r i.kind { i with url := some url }) result)

/-- ghoshell/ghost/tool.py lines 162-196, `CtxTool._add_task_intentions`:
`if not task.attentions: return result` gates BOTH modes (even the
`attentions=False` own-intention mode); the url list is the task's
attentions, or just `task.url` when `attentions` is false. -/
def addTaskIntentions (c : CtxModel) (result : List (String × List Intention))
    (task : Task) (attentions : Bool) : Except PyErr (List (String × List Intention)) :=
  if task.attentions = [] then Except.ok result
  else
    let url_list := if attentions then task.attentions else [task.url]
    url_list.foldlM (addIntentionsOfUrl c) result

/-- ghoshell/ghost/tool.py lines 89-125, `CtxTool.context_intentions`.
The variable the source names `awaiting_task` is fetched with
`RuntimeTool.fetch_root_task`, so the level test on line 104 (`==
LEVEL_PROTECTED`, an early return) reads the ROOT task's level; root is
added again at the end when `process.awaiting != process.root`. -/
def context_intentions (c : CtxModel) : Except PyErr (List (String × List Intention)) := do
  let awaiting_task ← fetchRootTask c
  let result ← addTaskIntentions c [] awaiting_task false
  if awaiting_task.level = TaskLevel.LEVEL_PROTECTED then
    return result
  let result ← c.blocking.foldlM (fun r tid => do
    let t ← getTaskE c tid
    addTaskIntentions c r t false) result
  let result ← c.waiting.foldlM (fun r tid => do
    let t ← getTaskE c tid
    addTaskIntentions c r t false) result
  if c.awaiting ≠ c.root then
    let root_task ← fetchRootTask c
    addTaskIntentions c result root_task false
  else
    return result

/-- ghoshell/ghost/tool.py lines 127-156, `CtxTool.context_attentions`:
root's declared attentions first, the awaiting task's when it differs
from root, and the waiting tasks' only when the awaiting task's level is
not LEVEL_PRIVATE. -/
def context_attentions (c : CtxModel) : Except PyErr (List (String × List Intention)) := do
  let root_task ← fetchRootTask c
  let result ← addTaskIntentions c [] root_task true
  let awaiting_task ← fetchAwaitingTask c
  let result ←
    if c.awaiting ≠ c.root then addTaskIntentions c result awaiting_task true
    else pure result
  if awaiting_task.level = TaskLevel.LEVEL_PRIVATE then
    return result
  c.waiting.foldlM (fun r tid => do
    let t ← getTaskE c tid
    addTaskIntentions c r t true) result

/-! ### ReceiveInputOperator (ghoshell/ghost_fmk/operators.py lines 128-176) -/

/-- Modelled from the spec: `Process.await_at(tid)` (runtime.py not under
src/) promotes `tid` to awaiting and demotes the prior occupant into the
waiting list. -/
def CtxModel.await_at (c : CtxModel) (tid : String) : CtxModel :=
  if tid = c.awaiting then c
  else { c with
    awaiting := tid,
    waiting := (c.waiting.filter (fun w => w != tid)) ++ [c.awaiting] }

/-- The inputs `ReceiveInputOperator._run_operation` consumes: the context
state, the input payload's optional target tid, the `"command_line"`-style
matcher and the global fuzzy matcher.  `CtxTool.match_attentions` and
`CtxTool.match_global_intentions` are not defined in
ghoshell/ghost/tool.py, so matching itself is an abstract deterministic
function of the aggregated candidates. -/
structure RICtx where
  ctx : CtxModel
  payloadTid : Option String := none
  matchFn : List (String × List Intention) → Option Intention
  globalMatch : Option Intention := none

/-- ghoshell/ghost_fmk/operators.py lines 160-176,
`ReceiveInputOperator._check_payload_tid`: when the payload names a
WAITING task, promote it to awaiting. -/
def checkPayloadTid (c : RICtx) : RICtx :=
  match c.payloadTid with
  | none => c
  | some tid =>
    match c.ctx.getTask tid with
    | none => c
    | some t =>
      if t.status ≠ TaskStatus.WAITING then c
      else { c with ctx := c.ctx.await_at tid }

/-- Continuation chosen by `ReceiveInputOperator._run_operation`. -/
inductive RIOutcome where
  | intending (matched : Intention)
  | fallthrough
deriving DecidableEq, Repr

/-- Observable record of one `_run_operation` run: the aggregation each
pass computed (`secondAgg` is none when the first pass already matched),
whether the global fuzzy match was attempted, the fetched awaiting task,
and the chosen continuation. -/
structure RIResult where
  firstAgg : List (String × List Intention)
  secondAgg : Option (List (String × List Intention))
  globalTried : Bool
  awaitingTask : Task
  outcome : RIOutcome
deriving DecidableEq, Repr

/-- ghoshell/ghost_fmk/operators.py lines 133-155, the matching passes of
`ReceiveInputOperator._run_operation` (after `_check_payload_tid`): the
first pass computes `CtxTool.context_attentions` and matches; on a miss
the second pass computes `CtxTool.context_attentions` AGAIN (line 143 —
not `context_intentions`) and matches; if both miss and the awaiting
task's level is LEVEL_PUBLIC, try the global fuzzy match; any match
continues with IntendingOperator, otherwise fall through. -/
def riMatchPasses (c : RICtx) : Except PyErr RIResult := do
  let awaiting_task ← fetchAwaitingTask c.ctx
  let attentions1 ← context_attentions c.ctx
  match c.matchFn attentions1 with
  | some matched =>
    pure ⟨attentions1, none, false, awaiting_task, RIOutcome.intending matched⟩
  | none =>
    let attentions2 ← context_attentions c.ctx
    match c.matchFn attentions2 with
    | some matched =>
      pure ⟨attentions1, some attentions2, false, awaiting_task, RIOutcome.intending matched⟩
    | none =>
      if awaiting_task.level = TaskLevel.LEVEL_PUBLIC then
        match c.globalMatch with
        | some matched =>
          pure ⟨attentions1, some attentions2, true, awaiting_task, RIOutcome.intending matched⟩
        | none =>
          pure ⟨attentions1, some attentions2, true, awaiting_task, RIOutcome.fallthrough⟩
      else
        pure ⟨attentions1, some attentions2, false, awaiting_task, RIOutcome.fallthrough⟩

/-- ghoshell/ghost_fmk/operators.py lines 128-155,
`ReceiveInputOperator._run_operation`: `_check_payload_tid` first, then
the matching passes. -/
def receiveInputRunOperation (c0 : RICtx) : Except PyErr RIResult :=
  riMatchPasses (checkPayloadTid c0)

/-! ### Command-line intention driver
(ghoshell/ghost_fmk/intentions/command.py) -/

/-- Python `str.split(sep, maxsplit)` on a character separator, over the
character list: every single occurrence of `sep` splits (consecutive
separators produce empty segments) until the split budget is spent. -/
def pySplitGo (sep : Char) : List Char → Nat → List Char → List (List Char)
  | [], _, acc => [acc.reverse]
  | ch :: rest, maxs, acc =>
    if ch = sep then
      match maxs with
      | 0 => pySplitGo sep rest 0 (ch :: acc)
      | Nat.succ m => acc.reverse :: pySplitGo sep rest m []
    else pySplitGo sep rest maxs (ch :: acc)

/-- Python `s.split(sep, maxsplit)` for strings. -/
def pySplit (sep : Char) (maxs : Nat) (s : String) : List String :=
  (pySplitGo sep s.data maxs []).map (fun cs => String.mk cs)

/-- Python `s.split(sep)` without a maxsplit: a budget of the string
length can never be exhausted. -/
def pySplitAll (sep : Char) (s : String) : List String :=
  pySplit sep s.data.length s

/-- Python `s.strip()` restricted to spaces (the inputs are single lines
already split on other whitespace). -/
def pyStrip (s : String) : String :=
  String.mk (((s.data.dropWhile (fun ch => decide (ch = ' '))).reverse.dropWhile
    (fun ch => decide (ch = ' '))).reverse)

/-- Python `s.startswith(pre)` for the one-character prefixes used here,
over the character list. -/
def pyStartsWith (s : String) (c : Char) : Bool :=
  match s.data with
  | [] => false
  | c2 :: _ => c2 = c

/-- Python `s.endswith(post)`, over the character lists. -/
def pyEndsWith (s post : String) : Bool :=
  post.data.isSuffixOf s.data

/-- command.py `Argument.nargs` values (`int | str | None`): an explicit
count, or the argparse arity markers. -/
inductive PyNargs where
  | num (n : Nat)
  | star
  | plus
  | question
deriving DecidableEq, Repr

/-- command.py `Argument`: one positional or optional CLI parameter.
`parse_argument_kwargs` iterates the mapping `{dest: name, description:
help, default: default, choices: choices, nargs: nargs}` over the
Argument dict: the keys `dest` and `description` are not Argument fields
and are skipped (argparse derives dest from the name/flags and never
receives help text), while `default`, `nargs` and `choices` ARE Argument
fields and are forwarded to `add_argument` whenever set.  Values are
modelled over strings. -/
structure Argument where
  name : String
  desc : String := ""
  short : String := ""
  default : Option String := none
  nargs : Option PyNargs := none
  choices : Option (List String) := none
deriving DecidableEq, Repr

/-- command.py `Command`: name, single optional positional argument,
options. -/
structure Command where
  name : String := ""
  desc : String := ""
  arg : Option Argument := none
  opts : List Argument := []
  epilog : String := ""
deriving DecidableEq, Repr

/-- command.py `CommandOutput`: params are argparse's namespace dict,
insertion-ordered, each dest bound to a token or None. -/
structure CommandOutput where
  error : Bool
  message : String := ""
  params : List (String × Option String) := []
deriving DecidableEq, Repr

/-- command.py `CommandIntention` (kind `"command_line"`). -/
structure CommandIntention where
  kind : String := "command_line"
  config : Command
  params : Option CommandOutput := none
deriving DecidableEq, Repr

/-- command.py `Command.to_intention`. -/
def Command.to_intention (c : Command) : CommandIntention :=
  { config := c }

/-- First character of a short flag, as `parse_argument_args` takes
`arg.short[0]`. -/
def take1 (s : String) : String :=
  String.mk (s.data.take 1)

/-- Which declared option a `-x` / `--name` token selects.  Options with
an empty `short` get no flags at all in `parse_argument_args`. -/
def findOption (opts : List Argument) (tok : String) : Option Argument :=
  opts.find? (fun o =>
    decide (o.short ≠ "") &&
      (tok == "-" ++ take1 o.short || tok == "--" ++ o.name))

/-- Running state of the argparse scan: the positional binding and the
option bindings in occurrence order. -/
structure ParseState where
  posBound : Option String := none
  optBound : List (String × String) := []
deriving DecidableEq, Repr

/-- Whether a consumed value passes an argument's forwarded `choices`
constraint (always, when none is declared). -/
def choicesOk (a : Argument) (v : String) : Bool :=
  match a.choices with
  | none => true
  | some cs => cs.contains v

/-- One non-flag token: an unknown `-` token and any non-first plain
token land in argparse's ignored extras; the first plain token binds the
declared positional parameter and is validated against its forwarded
`choices` — a violation is an `argparse.ArgumentError`, which
`exit_on_error=False` lets escape uncaught. -/
def posTokenStep (posArg : Option Argument) (st : ParseState) (tok : String) :
    Except PyErr ParseState :=
  if pyStartsWith tok '-' then Except.ok st
  else
    match st.posBound with
    | some _ => Except.ok st
    | none =>
      match posArg with
      | none => Except.ok st
      | some a =>
        if choicesOk a tok then Except.ok { st with posBound := some tok }
        else
          Except.error (PyErr.argumentError
            ("argument " ++ a.name ++ ": invalid choice: " ++ tok))

/-- Modelled boundary: the scan of Python argparse `parse_known_args`
over the flags command.py declares, inside the modelled region (exact
space-separated `-x`/`--name` tokens: no prefix abbreviation, no
`=`-joined values, no use of the automatic `-h`/`--help`): a declared
flag consumes the next token as its value — a missing value or a
`choices` violation raises `argparse.ArgumentError`, which
`exit_on_error=False` lets escape `parse_known_args` uncaught — and
other tokens go through `posTokenStep`. -/
def parseTokens (posArg : Option Argument) (opts : List Argument) :
    List String → ParseState → Except PyErr ParseState
  | [], st => Except.ok st
  | [tok], st =>
    match findOption opts tok with
    | some o =>
      Except.error (PyErr.argumentError
        ("argument --" ++ o.name ++ ": expected one argument"))
    | none => posTokenStep posArg st tok
  | tok :: v :: rest, st =>
    match findOption opts tok with
    | some o =>
      if choicesOk o v then
        parseTokens posArg opts rest { st with optBound := st.optBound ++ [(o.name, v)] }
      else
        Except.error (PyErr.argumentError
          ("argument --" ++ o.name ++ ": invalid choice: " ++ v))
    | none =>
      match posTokenStep posArg st tok with
      | Except.error e => Except.error e
      | Except.ok st2 => parseTokens posArg opts (v :: rest) st2

/-- Last bound occurrence of an option (argparse store semantics). -/
def lookupLast (l : List (String × String)) (k : String) : Option String :=
  (l.reverse.find? (fun p => p.1 == k)).map (fun p => p.2)

/-- command.py lines 169-172: registering the options.
`parse_argument_args` generates no flag strings for an option whose
`short` is empty (the default), so `parser.add_argument()` is called with
keyword arguments only, which Python argparse rejects with a `TypeError`
(its positional-branch helper is missing its required `dest`). -/
def checkOpts : List Argument → Except PyErr Unit
  | [] => Except.ok ()
  | o :: rest =>
    if o.short = "" then
      Except.error (PyErr.typeError
        "add_argument missing 1 required positional argument: dest")
    else checkOpts rest

/-- command.py lines 156-172: parser construction.  The declared
positional is added first — `add_argument("")` on an empty name raises
IndexError at `args[0][0]` — then each option, failing with `TypeError`
at the first option whose `short` is empty. -/
def buildParser (cmd : Command) : Except PyErr Unit :=
  match cmd.arg with
  | some a => if a.name = "" then Except.error PyErr.indexError else checkOpts cmd.opts
  | none => checkOpts cmd.opts

/-- The flag strings `parse_argument_args` generates for an option (none
when `short` is empty). -/
def optFlags (o : Argument) : List String :=
  if o.short = "" then [] else ["-" ++ take1 o.short, "--" ++ o.name]

/-- The command configurations for which the argparse boundary model is
argparse-exact: the positional (when declared) has a non-empty,
non-dash-leading name and default arity; every option has a non-empty
name and default arity; and no generated flag collides with another or
with the automatic `-h`/`--help` (a collision would raise at
construction before any empty `short` is reached). -/
def inModelScope (cmd : Command) : Bool :=
  cmd.arg.all (fun a =>
    decide (a.name ≠ "") && !(pyStartsWith a.name '-') && decide (a.nargs = none))
  && cmd.opts.all (fun o => decide (o.name ≠ "") && decide (o.nargs = none))
  && decide (("-h" :: "--help" :: (cmd.opts.map optFlags).flatten).Nodup)

/-- command.py lines 153-186, `FocusOnCommandHandler._parse_command`:
construct the parser (construction failures — TypeError, IndexError —
escape), whitespace-tokenize dropping empty tokens, scan; a failure
argparse raises as ArgumentError escapes uncaught (`exit_on_error=False`
bypasses the `error()` hook), while a missing required positional goes
through the overridden `error()` hook — `error_occur` is set and the repo
raises ErrMessageException (InvalidInput) carrying the hook's message.
Otherwise return a CommandOutput with `error=False` and the namespace
params in add order (positional first, then each option, an unbound
option holding its forwarded `default`). -/
def parse_command (cmd : Command) (arguments : String) : Except PyErr CommandOutput :=
  match buildParser cmd with
  | Except.error e => Except.error e
  | Except.ok _ =>
    let toks := (pySplitAll ' ' arguments).filter (fun s => decide (s ≠ ""))
    match parseTokens cmd.arg cmd.opts toks {} with
    | Except.error e => Except.error e
    | Except.ok st =>
      let optParams := cmd.opts.map (fun o =>
        (o.name, (lookupLast st.optBound o.name).orElse (fun _ => o.default)))
      match cmd.arg with
      | some a =>
        match st.posBound with
        | none =>
          Except.error (PyErr.errMessage
            ("the following arguments are required: " ++ a.name))
        | some v =>
          Except.ok { error := false, params := (a.name, some v) :: optParams }
      | none => Except.ok { error := false, params := optParams }

/-- command.py lines 130-137: the candidate dict keyed by command name,
first registered name wins (`if name in commands: continue`). -/
def buildCommandsDict (metas : List CommandIntention) :
    List (String × CommandIntention) :=
  metas.foldl (fun acc meta =>
    if (acc.find? (fun p => p.1 == meta.config.name)).isSome then acc
    else acc ++ [(meta.config.name, meta)]) []

/-- Ordered-dict lookup. -/
def lookupCommand (d : List (String × CommandIntention)) (k : String) :
    Option CommandIntention :=
  (d.find? (fun p => p.1 == k)).map (fun p => p.2)

/-- command.py line 145: the argument string handed to the parser — the
stripped SECOND whitespace segment of the post-prefix text, "" when there
is none; the third segment (everything after the second space) is never
consulted. -/
def argStringOf (restChars : List Char) : String :=
  let seps := pySplit ' ' 2 (String.mk restChars)
  if seps.length < 2 then "" else pyStrip (seps.getD 1 "")

/-- command.py lines 122-151, `FocusOnCommandHandler.match_raw_text`:
`text[0]` (IndexError on empty input) must equal the `"/"` prefix, the
remainder is split on single spaces at most twice, the first segment is
the command-name key, the stripped SECOND segment alone (`argStringOf`)
is handed to the argument parser (a third segment is dropped), and a
successful parse is attached as the match's params. -/
def matchRawChars (chars : List Char) (metas : List CommandIntention) :
    Except PyErr (Option CommandIntention) :=
  match chars with
  | [] => Except.error PyErr.indexError
  | ch :: restChars =>
    if ch ≠ '/' then Except.ok none
    else
      let commands := buildCommandsDict metas
      let command_line := String.mk restChars
      let seps := pySplit ' ' 2 command_line
      let command_name := seps.headI
      match lookupCommand commands command_name with
      | none => Except.ok none
      | some matched_meta =>
        let arguments := argStringOf restChars
        match parse_command matched_meta.config arguments with
        | Except.error e => Except.error e
        | Except.ok result => Except.ok (some { matched_meta with params := some result })

/-- command.py `match_raw_text` on a string input: dispatch on its
character list. -/
def match_raw_text (text : String) (metas : List CommandIntention) :
    Except PyErr (Option CommandIntention) :=
  matchRawChars text.data metas

/-- command.py lines 106-120, `FocusOnCommandHandler.match`: no match on
a missing or empty Text payload, else delegate to `match_raw_text`. -/
def matchText (input : Option String) (metas : List CommandIntention) :
    Except PyErr (Option CommandIntention) :=
  match input with
  | none => Except.ok none
  | some text =>
    if text.data.length = 0 then Except.ok none
    else match_raw_text text metas

/-! ### OperatorManager.run_dominos (ghoshell/ghost/operate.py lines 143-164)

Operators are identified by a `Nat`; the behaviour of `op.run(ctx)` for the
whole round is a function from operator to either an exception, the next
operator, or nothing.  The loop is given fuel (the Python loop can run
forever; every theorem about trace shape holds for any fuel, and the
fuel-exhausted outcome is marked distinctly).  Side effects
(`is_stackoverflow`, `trace`, `run`, `destroy`, `save_trace`) are recorded
as an event list. -/

/-- One observable side effect of the run loop. -/
inductive LoopEvent where
  | checkedOverflow (b : Bool)
  | traced (op : Nat)
  | ran (op : Nat)
  | destroyed (op : Nat)
  | savedTrace
deriving DecidableEq, Repr

/-- How the round ended. -/
inductive LoopOutcome (E : Type) where
  | finished
  | raised (e : E)
  | fuelOut
deriving DecidableEq, Repr

/-- The `while op is not None` body of `run_dominos`:
`is_stackoverflow(op, count)` (result recorded, not consulted), `trace(op)`,
`count += 1`, `op.run(ctx)` (an exception aborts the loop without
`destroy`), `op.destroy()`, continue with the returned operator. -/
def runDominosLoop {E : Type} (run : Nat → Except E (Option Nat))
    (isOverflow : Nat → Nat → Bool) :
    Nat → Nat → Nat → List LoopEvent × LoopOutcome E
  | 0, _, _ => ([], LoopOutcome.fuelOut)
  | fuel + 1, op, count =>
    let checked := LoopEvent.checkedOverflow (isOverflow op count)
    match run op with
    | Except.error e =>
      ([checked, LoopEvent.traced op, LoopEvent.ran op], LoopOutcome.raised e)
    | Except.ok none =>
      ([checked, LoopEvent.traced op, LoopEvent.ran op, LoopEvent.destroyed op],
        LoopOutcome.finished)
    | Except.ok (some op2) =>
      let r := runDominosLoop run isOverflow fuel op2 (count + 1)
      (checked :: LoopEvent.traced op :: LoopEvent.ran op :: LoopEvent.destroyed op :: r.1,
        r.2)

/-- ghoshell/ghost/operate.py lines 143-164, `OperatorManager.run_dominos`:
the try/finally guarantees exactly one trailing `save_trace()` on every
exit, the raised exception included. -/
def run_dominos {E : Type} (run : Nat → Except E (Option Nat))
    (isOverflow : Nat → Nat → Bool) (fuel op : Nat) :
    List LoopEvent × LoopOutcome E :=
  let r := runDominosLoop run isOverflow fuel op 0
  (r.1 ++ [LoopEvent.savedTrace], r.2)

/-- Normalizes the recorded overflow-check booleans, to state that the
trace does not otherwise depend on the `is_stackoverflow` policy. -/
def eraseOverflowBools (l : List LoopEvent) : List LoopEvent :=
  l.map (fun e =>
    match e with
    | LoopEvent.checkedOverflow _ => LoopEvent.checkedOverflow true
    | x => x)

/-- Checker for the per-iteration shape of a round trace: zero or more
complete iterations `check, trace(op), run(op), destroy(op)`, then either
a final raising iteration `check, trace(op), run(op)` (destroy skipped)
followed by the save, or the save directly. -/
def wellFormedTrace : List LoopEvent → Bool
  | [LoopEvent.savedTrace] => true
  | [LoopEvent.checkedOverflow _, LoopEvent.traced a, LoopEvent.ran b,
      LoopEvent.savedTrace] => a == b
  | LoopEvent.checkedOverflow _ :: LoopEvent.traced a :: LoopEvent.ran b ::
      LoopEvent.destroyed c :: rest =>
    a == b && b == c && wellFormedTrace rest
  | _ => false

/-! ### FileAgentMindset (ghoshell/llms/thinks/agent.py lines 702-728) -/

/-- A parsed YAML document: its optional explicit `name` plus the rest of
the document, opaque here. -/
structure YamlDoc where
  name : Option String := none
  payload : String := ""
deriving DecidableEq, Repr

/-- One file somewhere under the scanned directory: the chain of
subdirectories below the scan root (empty for a top-level file), the
filename, and the document the file holds. -/
structure FsEntry where
  subdirs : List String := []
  filename : String
  doc : YamlDoc
deriving DecidableEq, Repr

/-- The scanned directory: its path and every file `os.walk` reaches,
at any depth. -/
structure AgentDir where
  dirname : String
  entries : List FsEntry
deriving DecidableEq, Repr

/-- Python `s.rstrip("/")`. -/
def rstripSlash (s : String) : String :=
  String.mk (s.data.reverse.dropWhile (fun c => decide (c = '/'))).reverse

/-- Join path components with `/`. -/
def joinPath (parts : List String) : String :=
  String.intercalate "/" parts

/-- The real path of an entry (scan root, its subdirectory chain, its
filename). -/
def FsEntry.truePath (d : AgentDir) (e : FsEntry) : String :=
  joinPath (rstripSlash d.dirname :: e.subdirs ++ [e.filename])

/-- `open(path)`: the document of the entry whose real path is `path`,
or FileNotFoundError. -/
def openFile (d : AgentDir) (path : String) : Option YamlDoc :=
  (d.entries.find? (fun e => FsEntry.truePath d e == path)).map (fun e => e.doc)

/-- agent.py `AgentThinkConfig`, restricted to the name that keys the
cache plus the opaque remainder. -/
structure AgentThinkConfig where
  name : String
  payload : String := ""
deriving DecidableEq, Repr

/-- Python dict assignment `cache[name] = config`: overwrite in place,
new keys go to the end. -/
def cacheInsert (cache : List (String × AgentThinkConfig)) (k : String)
    (v : AgentThinkConfig) : List (String × AgentThinkConfig) :=
  match cache with
  | [] => [(k, v)]
  | (k2, v2) :: rest =>
    if k2 = k then (k, v) :: rest
    else (k2, v2) :: cacheInsert rest k v

/-- agent.py lines 713-728, `FileAgentMindset._load_configs`: for every
walked file ending `.yaml`, the opened path is
`config_path.rstrip("/") + "/" + filename` — the walk's `root` component
is ignored, so a file in a subdirectory is looked up at the top level
(FileNotFoundError when no top-level file shares its name); an absent
document `name` is synthesized as `prefix.rstrip("/") + "/" +
filename-without-".yaml"`; the cache assignment overwrites repeated
names. -/
def loadConfigs (d : AgentDir) (pfx : String) :
    Except PyErr (List (String × AgentThinkConfig)) :=
  d.entries.foldlM (fun cache e =>
    if ¬ pyEndsWith e.filename ".yaml" then pure cache
    else
      let basename := String.mk (e.filename.data.take (e.filename.data.length - 5))
      let full_filename := rstripSlash d.dirname ++ "/" ++ e.filename
      match openFile d full_filename with
      | none => Except.error (PyErr.fileNotFound full_filename)
      | some data =>
        let name :=
          match data.name with
          | some n => n
          | none => rstripSlash pfx ++ "/" ++ basename
        pure (cacheInsert cache name { name := name, payload := data.payload }))
    []

/-- agent.py lines 704-711, `FileAgentMindset.__init__`: a falsy prefix
defaults to `"agents"`, then the configs are loaded eagerly. -/
def fileAgentMindsetInit (d : AgentDir) (pfx : Option String) :
    Except PyErr (List (String × AgentThinkConfig)) :=
  let p :=
    match pfx with
    | none => "agents"
    | some s => if s = "" then "agents" else s
  loadConfigs d p

/-! ### Mind construction and awaits (ghoshell/ghost/mindset/mind.py) -/

/-- The slice of a Thought the Mind methods touch: its url and its
attentions attribute (Python None vs a list of URLs). -/
structure Thought where
  url : URL
  attentions : Option (List URL) := none
deriving DecidableEq, Repr

/-- mind.py lines 16-18, `Mind.__init__(self, this)`: the very first
statement is `this.attentions = None` — binding a Mind to a thought
clears whatever attentions the thought carried. -/
def mind_init (this : Thought) : Thought :=
  { this with attentions := none }

/-- mind.py lines 60-70, `Mind._focus_stages`: no-op on a falsy list,
else append one same-think URL per stage name via `url.to_stage`. -/
def focus_stages (this : Thought) (stages : List String) : Thought :=
  if stages = [] then this
  else
    let attentions := this.attentions.getD []
    { this with
      attentions := some (attentions ++ stages.map (fun st => this.url.to_stage st)) }

/-- mind.py lines 72-82, `Mind._focus_thinks`: no-op on a falsy list,
else append each URL with its stage cleared (cross-think jumps may only
target the entry point). -/
def focus_thinks (this : Thought) (thinks : List URL) : Thought :=
  if thinks = [] then this
  else
    let attentions := this.attentions.getD []
    { this with
      attentions := some (attentions ++ thinks.map (fun u => { u with stage := "" })) }

/-- mind.py lines 46-54, `Mind.awaits`: record the focus stages, then the
focus thinks, then suspend; this is the thought-state part of it. -/
def awaits (this : Thought) (stages : List String) (thinks : List URL) : Thought :=
  focus_thinks (focus_stages this stages) thinks

/-! ### Concrete instances used by the counterexamples and witnesses -/

/-- A task at stage s0 with the given status. -/
def exTaskAt (s : TaskStatus) : Task :=
  { tid := "t", url := { resolver := "r", stage := "s0" }, status := s }

/-- A process with empty withdrawal queues and no fallback task. -/
def exSchedProcess : SchedProcess :=
  { root := "t0" }

def urlR0 : URL := { resolver := "r", stage := "" }

def urlRS : URL := { resolver := "r", stage := "s" }

def urlA0 : URL := { resolver := "a", stage := "" }

def urlW0 : URL := { resolver := "w", stage := "" }

/-- Intention declared by the root resolver's entry stage. -/
def intRoot : Intention := { kind := "k", config := "root-stage" }

/-- Intention declared by the stage the root task's attention points at. -/
def intAtt : Intention := { kind := "k", config := "root-att" }

/-- Intention declared by the awaiting task's stage. -/
def intAw : Intention := { kind := "k", config := "await" }

/-- Intention declared by the waiting task's stage. -/
def intW : Intention := { kind := "k", config := "wait" }

def intRootU : Intention := { intRoot with url := some urlR0 }

def intAttU : Intention := { intAtt with url := some urlRS }

def intAwU : Intention := { intAw with url := some urlA0 }

def intWU : Intention := { intW with url := some urlW0 }

/-- Root task of context A: no declared attentions/routers. -/
def t0A : Task := { tid := "t0", url := urlR0, status := TaskStatus.WAITING }

/-- Context A (claim C4): the root task is also awaiting, its stage
declares an intention, but its attentions/routers list is empty. -/
def ctxA : CtxModel :=
  { root := "t0", awaiting := "t0", tasks := [t0A],
    stages := [("r", "", [intRoot])] }

/-- Root task of context B: PUBLIC, non-empty attentions. -/
def t0B : Task :=
  { tid := "t0", url := urlR0, status := TaskStatus.WAITING, attentions := [urlR0] }

/-- Awaiting task of context B: PRIVATE. -/
def t1B : Task :=
  { tid := "t1", url := urlA0, status := TaskStatus.WAITING,
    level := TaskLevel.LEVEL_PRIVATE, attentions := [urlA0] }

/-- Waiting task of context B. -/
def t2B : Task :=
  { tid := "t2", url := urlW0, status := TaskStatus.WAITING, attentions := [urlW0] }

/-- Context B (claim C4): the awaiting task t1 is PRIVATE, yet the
waiting task t2 sits below it; the root task t0 is PUBLIC. -/
def ctxB : CtxModel :=
  { root := "t0", awaiting := "t1", waiting := ["t2"],
    tasks := [t0B, t1B, t2B],
    stages := [("r", "", [intRoot]), ("a", "", [intAw]), ("w", "", [intW])] }

/-- Root task of context 5: its declared attention points at (r, s). -/
def t05 : Task :=
  { tid := "t0", url := urlR0, status := TaskStatus.WAITING, attentions := [urlRS] }

/-- Awaiting task of context 5: PRIVATE. -/
def t15 : Task :=
  { tid := "t1", url := urlA0, status := TaskStatus.WAITING,
    level := TaskLevel.LEVEL_PRIVATE, attentions := [urlA0] }

/-- Waiting task of context 5. -/
def t25 : Task :=
  { tid := "t2", url := urlW0, status := TaskStatus.WAITING, attentions := [urlW0] }

/-- Context for claim C5: root t0 declares an attention on (r, s); the
awaiting task t1 is PRIVATE; a waiting task t2 exists. -/
def ctx5 : CtxModel :=
  { root := "t0", awaiting := "t1", waiting := ["t2"],
    tasks := [t05, t15, t25],
    stages := [("r", "s", [intAtt]), ("a", "", [intAw]), ("w", "", [intW])] }

/-- The awaiting=root task for claim C2: WAITING, PUBLIC, its attention
points at (r, s) while its own url is (r, ""). -/
def t0c2 : Task :=
  { tid := "t0", url := urlR0, status := TaskStatus.WAITING,
    attentions := [urlRS] }

/-- Context for claim C2: `context_attentions` yields the (r, s)
intention, `context_intentions` the (r, "") one, so the two aggregations
differ. -/
def ctx2m : CtxModel :=
  { root := "t0", awaiting := "t0", tasks := [t0c2],
    stages := [("r", "", [intRoot]), ("r", "s", [intAtt])] }

/-- ReceiveInput context for claim C2 whose matcher never matches. -/
def ri2 : RICtx :=
  { ctx := ctx2m, matchFn := fun _ => none }

/-- The aggregation both passes of claim C2's run compute. -/
def agg2A : List (String × List Intention) := [("k", [intAttU])]

/-- The context_intentions aggregation of the same context. -/
def agg2B : List (String × List Intention) := [("k", [intRootU])]

/-- The result record of claim C2's concrete run. -/
def rec2 : RIResult :=
  ⟨agg2A, some agg2A, true, t0c2, RIOutcome.fallthrough⟩

/-- The spec's example command: `Command{name:"set", arg:Argument{name:"key"}}`. -/
def setCmd : Command :=
  { name := "set", arg := some { name := "key" } }

def setMeta : CommandIntention := setCmd.to_intention

/-- The parse result of `/set foo`. -/
def setOut : CommandOutput :=
  { error := false, params := [("key", some "foo")] }

/-- A command whose positional argument carries a `choices` constraint. -/
def choiceCmd : Command :=
  { name := "set", arg := some { name := "key", choices := some ["a", "b"] } }

def choiceMeta : CommandIntention := choiceCmd.to_intention

/-- A command with one option left at the default empty `short`. -/
def cfgCmd : Command :=
  { name := "cfg", opts := [{ name := "mode" }] }

def cfgMeta : CommandIntention := cfgCmd.to_intention

/-- A deterministic operator behaviour for the run-loop witness:
operator 0 chains to 1, operator 1 ends the round. -/
def exRun : Nat → Except Nat (Option Nat) :=
  fun k => if k = 0 then Except.ok (some 1) else Except.ok none

/-- A directory holding a single agent definition inside a
subdirectory. -/
def exNestedDir : AgentDir :=
  { dirname := "dir",
    entries := [{ subdirs := ["sub"], filename := "x.yaml", doc := { payload := "p" } }] }

/-- A flat directory: a.yaml has no explicit name, b.yaml and c.yaml both
carry the explicit name "custom". -/
def exFlatDir : AgentDir :=
  { dirname := "dir2",
    entries :=
      [{ filename := "a.yaml", doc := { payload := "pa" } },
       { filename := "b.yaml", doc := { name := some "custom", payload := "pb" } },
       { filename := "c.yaml", doc := { name := some "custom", payload := "pc" } }] }

/-! ### Helper lemmas -/

@[simp]
theorem okBind {α β : Type} (a : α) (f : α → Except PyErr β) :
    (Except.ok a >>= f : Except PyErr β) = f a := rfl

@[simp]
theorem errBind {α β : Type} (e : PyErr) (f : α → Except PyErr β) :
    (Except.error e >>= f : Except PyErr β) = Except.error e := rfl

@[simp]
theorem pureIsOk {α : Type} (a : α) : (pure a : Except PyErr α) = Except.ok a := rfl

@[simp]
theorem bindPureExcept {α : Type} (x : Except PyErr α) : (x >>= pure) = x := by
  cases x <;> rfl

@[simp]
theorem bindOkExcept {α : Type} (x : Except PyErr α) :
    (x >>= fun a => Except.ok a) = x := by
  cases x <;> rfl

/-! ### Claim theorems -/

/-- C1: the `ActivateOperator._run_operation` arms for FINISHED/DEAD
(restart then Activating) and for PREEMPTING/DEPENDING/YIELDING (fire
Preempted) are Python sequence patterns that never match the scalar
status, so every non-NEW status falls to the catch-all: the task is left
unchanged (no restart — restarting WOULD have changed it) and an
Activating event is fired, never a Preempted one.  Only the NEW arm
behaves as the claim states. -/
theorem c1_activate_dead_match_arms :
    activateRunOperation (exTaskAt TaskStatus.FINISHED) "s1"
      = (exTaskAt TaskStatus.FINISHED, ActivateOutcome.fireActivating "t" "s1")
  ∧ activateRunOperation (exTaskAt TaskStatus.DEAD) "s1"
      = (exTaskAt TaskStatus.DEAD, ActivateOutcome.fireActivating "t" "s1")
  ∧ activateRunOperation (exTaskAt TaskStatus.PREEMPTING) "s1"
      = (exTaskAt TaskStatus.PREEMPTING, ActivateOutcome.fireActivating "t" "s1")
  ∧ activateRunOperation (exTaskAt TaskStatus.DEPENDING) "s1"
      = (exTaskAt TaskStatus.DEPENDING, ActivateOutcome.fireActivating "t" "s1")
  ∧ activateRunOperation (exTaskAt TaskStatus.YIELDING) "s1"
      = (exTaskAt TaskStatus.YIELDING, ActivateOutcome.fireActivating "t" "s1")
  ∧ (exTaskAt TaskStatus.FINISHED).restart ≠ exTaskAt TaskStatus.FINISHED
  ∧ activateRunOperation (exTaskAt TaskStatus.NEW) "s1"
      = ({ exTaskAt TaskStatus.NEW with status := TaskStatus.RUNNING },
          ActivateOutcome.fireActivating "t" "s1") := by
  decide

/-- C3: for every process with empty canceling and failing queues and no
fallback task, `ScheduleOperator._run_operation` raises AttributeError at
`tid = fallback.tid` instead of completing: the no-fallback logic the
claim describes (re-preempt a WAITING root, notify the parent, mark
quiting) sits after this line and is unreachable. -/
theorem c3_schedule_no_fallback_raises (p : SchedProcess)
    (h1 : p.canceling = []) (h2 : p.failing = []) (h3 : p.fallbackTask = none) :
    scheduleRunOperation p = Except.error (PyErr.attributeError "tid") := by
  simp [scheduleRunOperation, h1, h2, h3]

/-- C3 witness: the concrete failing process. -/
theorem c3_schedule_no_fallback_witness :
    exSchedProcess.canceling = [] ∧ exSchedProcess.failing = []
  ∧ exSchedProcess.fallbackTask = none
  ∧ scheduleRunOperation exSchedProcess = Except.error (PyErr.attributeError "tid") :=
  ⟨rfl, rfl, rfl, c3_schedule_no_fallback_raises exSchedProcess rfl rfl rfl⟩

/-- C4 counterexample: (a) in `ctxA` the root task's stage declares an
intention, yet `context_intentions` returns an empty aggregation because
the root task's attentions list is empty — root's own intention is NOT
always included; (b) in `ctxB` the awaiting task t1 has level PRIVATE,
yet the waiting task t2's intention (config "wait") appears in the
aggregation — a PRIVATE awaiting task does not stop it (the early return
tests the ROOT task's level against PROTECTED). -/
theorem c4_counterexample :
    ctxA.fetchStageIntentions "r" "" = some [intRoot]
  ∧ context_intentions ctxA = Except.ok []
  ∧ (ctxB.getTask "t1").map Task.level = some TaskLevel.LEVEL_PRIVATE
  ∧ context_intentions ctxB = Except.ok [("k", [intRootU, intWU, intRootU])] := by
  decide

/-- C5 counterexample: in `ctx5` the awaiting task t1 has level PRIVATE,
but `context_attentions` also contains the intention contributed by the
ROOT task's declared attention (config "root-att", url (r, s)) — the
result is not only the awaiting task's own declared attentions. -/
theorem c5_counterexample :
    (ctx5.getTask "t1").map Task.level = some TaskLevel.LEVEL_PRIVATE
  ∧ context_attentions ctx5 = Except.ok [("k", [intAttU, intAwU])]
  ∧ intAttU.url = some urlRS
  ∧ (Except.ok [("k", [intAttU, intAwU])] : Except PyErr (List (String × List Intention)))
      ≠ Except.ok [("k", [intAwU])] := by
  decide

/-- C2 counterexample: in `ri2` the first pass misses, and the second
pass aggregation (`secondAgg`) equals the first pass's
`context_attentions` value, while `context_intentions` of the same
context is a different aggregation — the second pass does not compute
context intentions. -/
theorem c2_counterexample :
    receiveInputRunOperation ri2
      = Except.ok ⟨agg2A, some agg2A, true, t0c2, RIOutcome.fallthrough⟩
  ∧ context_attentions ri2.ctx = Except.ok agg2A
  ∧ context_intentions ri2.ctx = Except.ok agg2B
  ∧ agg2A ≠ agg2B := by
  decide

/-- C8: `FileAgentMindset._load_configs` walks recursively but opens
`dirname + "/" + filename`, ignoring the walk's directory component: the
nested file dir/sub/x.yaml is looked up at dir/x.yaml and raises
FileNotFoundError, so nested agent definitions are not loaded.  For
top-level files the claim's behaviour holds: a.yaml (no explicit name)
is cached as "agents/a", and the later explicit name "custom" silently
overwrites the earlier entry. -/
theorem c8_nested_yaml_file_not_found :
    FsEntry.truePath exNestedDir
        { subdirs := ["sub"], filename := "x.yaml", doc := { payload := "p" } }
      = "dir/sub/x.yaml"
  ∧ fileAgentMindsetInit exNestedDir none
      = Except.error (PyErr.fileNotFound "dir/x.yaml")
  ∧ fileAgentMindsetInit exFlatDir none
      = Except.ok [("agents/a", { name := "agents/a", payload := "pa" }),
                   ("custom", { name := "custom", payload := "pc" })] := by
  decide

/-- C10: binding a Mind to a thought clears the thought's attentions,
so (a) the fresh Mind sees no attentions, (b) `awaits` through the fresh
Mind is independent of whatever attentions the thought carried before,
and (c) what remains is exactly the focus stages (as same-think stage
URLs) followed by the focus thinks (with their stage cleared). -/
theorem c10_mind_init_discards_attentions (this : Thought)
    (prior : Option (List URL)) (stages : List String) (thinks : List URL) :
    (mind_init this).attentions = none
  ∧ awaits (mind_init this) stages thinks
      = awaits (mind_init { this with attentions := prior }) stages thinks
  ∧ (awaits (mind_init this) stages thinks).attentions
      = (if stages = [] ∧ thinks = [] then none
         else some (stages.map (fun st => this.url.to_stage st)
           ++ thinks.map (fun u => { u with stage := "" }))) := by
  refine ⟨rfl, rfl, ?_⟩
  by_cases hs : stages = [] <;> by_cases ht : thinks = [] <;>
    simp [awaits, focus_stages, focus_thinks, mind_init, hs, ht]

/-- Helper: under a PROTECTED root task the `context_intentions`
aggregation returns right after adding the root task. -/
theorem ctxIntProtectedEarly (c : CtxModel) (rt : Task)
    (hroot : fetchRootTask c = Except.ok rt)
    (hprot : rt.level = TaskLevel.LEVEL_PROTECTED) :
    context_intentions c = addTaskIntentions c [] rt false := by
  simp [context_intentions, hroot, hprot]

/-- C4 amended: `context_intentions` aggregates around the ROOT task (the
source's `awaiting_task` variable holds the root task): the root's own
intention is contributed only when the root task's attentions list is
non-empty; when the ROOT task's level is PROTECTED the aggregation stops
at root, independent of blocking, waiting and awaiting; otherwise every
blocking and waiting task's own intention is added (each behind the same
non-empty-attentions gate) and root is re-added when
`process.awaiting ≠ process.root`.  The awaiting task's PRIVATE level
plays no role. -/
theorem c4_amended_context_intentions (c : CtxModel) (rt : Task)
    (hroot : fetchRootTask c = Except.ok rt) :
    (rt.attentions = [] → ∀ r, addTaskIntentions c r rt false = Except.ok r)
  ∧ (rt.level = TaskLevel.LEVEL_PROTECTED →
      context_intentions c = addTaskIntentions c [] rt false
      ∧ ∀ b2 w2 a2,
          context_intentions { c with blocking := b2, waiting := w2, awaiting := a2 }
            = context_intentions c)
  ∧ (rt.level ≠ TaskLevel.LEVEL_PROTECTED →
      context_intentions c = (do
        let r1 ← addTaskIntentions c [] rt false
        let r2 ← c.blocking.foldlM (fun r tid => do
          let t ← getTaskE c tid
          addTaskIntentions c r t false) r1
        let r3 ← c.waiting.foldlM (fun r tid => do
          let t ← getTaskE c tid
          addTaskIntentions c r t false) r2
        if c.awaiting ≠ c.root then addTaskIntentions c r3 rt false
        else pure r3)) := by
  refine ⟨?_, ?_, ?_⟩
  · intro h r
    simp [addTaskIntentions, h]
  · intro hprot
    refine ⟨ctxIntProtectedEarly c rt hroot hprot, ?_⟩
    intro b2 w2 a2
    have h2 := ctxIntProtectedEarly
      { c with blocking := b2, waiting := w2, awaiting := a2 } rt hroot hprot
    rw [h2, ctxIntProtectedEarly c rt hroot hprot]
    rfl
  · intro hnp
    simp [context_intentions, hroot, hnp]

/-- C4 amended witness: in context A the root task's attentions list is
empty and its contribution is empty. -/
theorem c4_amended_witness :
    fetchRootTask ctxA = Except.ok t0A
  ∧ t0A.attentions = []
  ∧ addTaskIntentions ctxA [] t0A false = Except.ok [] :=
  ⟨by decide, by decide,
    (c4_amended_context_intentions ctxA t0A (by decide)).1 (by decide) []⟩

/-- Helper: under a PRIVATE awaiting task the `context_attentions`
aggregation returns right after root (and the awaiting task when it
differs from root). -/
theorem ctxAttPrivateEarly (c : CtxModel) (rt at2 : Task)
    (hroot : fetchRootTask c = Except.ok rt)
    (hawait : fetchAwaitingTask c = Except.ok at2)
    (hpriv : at2.level = TaskLevel.LEVEL_PRIVATE) :
    context_attentions c = (do
      let r1 ← addTaskIntentions c [] rt true
      if c.awaiting ≠ c.root then addTaskIntentions c r1 at2 true
      else pure r1) := by
  simp [context_attentions, hroot, hawait, hpriv]

/-- C5 amended: when the awaiting task's level is PRIVATE,
`context_attentions` is the root task's declared attentions followed by
(when awaiting ≠ root) the awaiting task's own declared attentions — the
waiting tasks contribute nothing (the result is independent of
`process.waiting`), but root's attentions are always included, so the
result is not only the awaiting task's own. -/
theorem c5_amended_context_attentions (c : CtxModel) (rt at2 : Task)
    (hroot : fetchRootTask c = Except.ok rt)
    (hawait : fetchAwaitingTask c = Except.ok at2)
    (hpriv : at2.level = TaskLevel.LEVEL_PRIVATE) :
    (∀ w2, context_attentions { c with waiting := w2 } = context_attentions c)
  ∧ context_attentions c = (do
      let r1 ← addTaskIntentions c [] rt true
      if c.awaiting ≠ c.root then addTaskIntentions c r1 at2 true
      else pure r1) := by
  have base := ctxAttPrivateEarly c rt at2 hroot hawait hpriv
  refine ⟨?_, base⟩
  intro w2
  have h2 := ctxAttPrivateEarly { c with waiting := w2 } rt at2 hroot hawait hpriv
  rw [h2, base]
  rfl

/-- C2 amended: `_run_operation` is `_check_payload_tid` followed by the
match passes, and in every successful run the first pass's candidate set
is `context_attentions` of the (possibly promoted) context; whenever a
second pass happened, its candidate set is the IDENTICAL aggregation
(`context_attentions` again, not `context_intentions`) and it matched
nothing the first pass missed; the global fuzzy match is attempted
exactly when both passes missed and the awaiting task's level is PUBLIC;
any match continues with Intending, fed by the first-pass match or the
global one. -/
theorem c2_receive_input_two_passes (c : RICtx) (r : RIResult)
    (h : riMatchPasses c = Except.ok r) :
    (∀ c0, receiveInputRunOperation c0 = riMatchPasses (checkPayloadTid c0))
  ∧ context_attentions c.ctx = Except.ok r.firstAgg
  ∧ (∀ a, r.secondAgg = some a → a = r.firstAgg ∧ c.matchFn a = none)
  ∧ (r.globalTried = true ↔
      (c.matchFn r.firstAgg = none
        ∧ r.awaitingTask.level = TaskLevel.LEVEL_PUBLIC))
  ∧ (∀ m, r.outcome = RIOutcome.intending m →
      c.matchFn r.firstAgg = some m ∨ c.globalMatch = some m) := by
  refine ⟨fun _ => rfl, ?_⟩
  unfold riMatchPasses at h
  cases hA : fetchAwaitingTask c.ctx with
  | error e => rw [hA] at h; simp at h
  | ok aw =>
    rw [hA] at h
    simp only [okBind] at h
    cases hAgg : context_attentions c.ctx with
    | error e => rw [hAgg] at h; simp at h
    | ok a1 =>
      rw [hAgg] at h
      simp only [okBind] at h
      cases hM : c.matchFn a1 with
      | some m =>
        rw [hM] at h
        simp only [pureIsOk, Except.ok.injEq] at h
        subst h
        refine ⟨rfl, ?_, ?_, ?_⟩
        · intro a ha; simp at ha
        · simp [hM]
        · intro m2 hm2
          simp only [RIOutcome.intending.injEq] at hm2
          exact Or.inl (hm2 ▸ hM)
      | none =>
        rw [hM] at h
        by_cases hL : aw.level = TaskLevel.LEVEL_PUBLIC
        · rw [if_pos hL] at h
          cases hG : c.globalMatch with
          | some m =>
            rw [hG] at h
            simp only [pureIsOk, Except.ok.injEq] at h
            subst h
            refine ⟨rfl, ?_, ?_, ?_⟩
            · intro a ha
              simp only [Option.some.injEq] at ha
              subst ha
              exact ⟨rfl, hM⟩
            · simp [hM, hL]
            · intro m2 hm2
              simp only [RIOutcome.intending.injEq] at hm2
              exact Or.inr (by rw [hm2])
          | none =>
            rw [hG] at h
            simp only [pureIsOk, Except.ok.injEq] at h
            subst h
            refine ⟨rfl, ?_, ?_, ?_⟩
            · intro a ha
              simp only [Option.some.injEq] at ha
              subst ha
              exact ⟨rfl, hM⟩
            · simp [hM, hL]
            · intro m2 hm2; simp at hm2
        · rw [if_neg hL] at h
          simp only [pureIsOk, Except.ok.injEq] at h
          subst h
          refine ⟨rfl, ?_, ?_, ?_⟩
          · intro a ha
            simp only [Option.some.injEq] at ha
            subst ha
            exact ⟨rfl, hM⟩
          · simp [hL]
          · intro m2 hm2; simp at hm2

/-- C2 amended witness: the concrete run of `ri2`. -/
theorem c2_receive_input_two_passes_witness :
    riMatchPasses ri2 = Except.ok rec2
  ∧ context_attentions ri2.ctx = Except.ok rec2.firstAgg
  ∧ (rec2.secondAgg = some agg2A → agg2A = rec2.firstAgg ∧ ri2.matchFn agg2A = none) :=
  ⟨by decide, (c2_receive_input_two_passes ri2 rec2 (by decide)).2.1,
    (c2_receive_input_two_passes ri2 rec2 (by decide)).2.2.1 agg2A⟩

/-- C5 amended witness: dropping the waiting list of context 5 does not
change the aggregation. -/
theorem c5_amended_witness :
    fetchRootTask ctx5 = Except.ok t05
  ∧ fetchAwaitingTask ctx5 = Except.ok t15
  ∧ t15.level = TaskLevel.LEVEL_PRIVATE
  ∧ context_attentions { ctx5 with waiting := [] } = context_attentions ctx5 :=
  ⟨by decide, by decide, by decide,
    (c5_amended_context_attentions ctx5 t05 t15 (by decide) (by decide) (by decide)).1 []⟩

/-- Helper: every CommandOutput `_parse_command` returns has
`error = false` (an erroring parse raises instead of returning). -/
theorem parse_command_ok_error_false (cmd : Command) (args : String)
    (out : CommandOutput) (h : parse_command cmd args = Except.ok out) :
    out.error = false := by
  unfold parse_command at h
  dsimp only at h
  split at h
  · exact absurd h (by simp)
  · split at h
    · exact absurd h (by simp)
    · split at h
      · split at h
        · exact absurd h (by simp)
        · simp only [Except.ok.injEq] at h
          subst h
          rfl
      · simp only [Except.ok.injEq] at h
        subst h
        rfl

/-- Helper: a list of options containing one with an empty `short` makes
the registration loop raise TypeError. -/
theorem checkOpts_has_empty_short (l : List Argument)
    (h : l.any (fun o => decide (o.short = "")) = true) :
    checkOpts l = Except.error (PyErr.typeError
      "add_argument missing 1 required positional argument: dest") := by
  induction l with
  | nil => simp at h
  | cons o rest ih =>
    by_cases ho : o.short = ""
    · simp [checkOpts, ho]
    · simp only [List.any_cons, ho, decide_False, Bool.false_or] at h
      simp [checkOpts, ho, ih h]

/-- C6 counterexample: two parse failures that are NOT the claimed
InvalidInput.  A `choices` violation (`/set zzz` against choices a, b)
escapes as a raw `argparse.ArgumentError`, because `exit_on_error=False`
bypasses the overridden `error()` hook; and a registered command whose
option keeps the default empty `short` (`/cfg on`) raises `TypeError` at
parser construction (`add_argument()` receives no flag strings), so no
input naming it can parse at all. -/
theorem c6_counterexample :
    match_raw_text "/set zzz" [choiceMeta]
      = Except.error (PyErr.argumentError "argument key: invalid choice: zzz")
  ∧ PyErr.isInvalidInput
      (PyErr.argumentError "argument key: invalid choice: zzz") = false
  ∧ match_raw_text "/cfg on" [cfgMeta]
      = Except.error (PyErr.typeError
          "add_argument missing 1 required positional argument: dest")
  ∧ PyErr.isInvalidInput
      (PyErr.typeError "add_argument missing 1 required positional argument: dest")
      = false := by
  decide

/-- C6 amended: command-driver dispatch.  (1) Input whose first character
is not the `/` prefix yields no match without raising; (2) an
unrecognized command name yields no match without raising; (3) for a
recognized command, EVERY parser failure — the error()-hook
ErrMessageException (InvalidInput) for a missing required positional, a
raw argparse.ArgumentError for an invalid choice or an option missing its
value, a TypeError from construction — propagates out of match_raw_text
unchanged, and a successful parse yields the matched intention carrying
the parse result as params with `error = false`; (4) every returned parse
result has `error = false`; (5) a command inside the modelled region
whose options include one with the default empty `short` raises TypeError
at construction for every input. -/
theorem c6_command_driver (metas : List CommandIntention) (text : String) :
    (∀ ch rest, text.data = ch :: rest → ch ≠ '/' →
        match_raw_text text metas = Except.ok none)
  ∧ (∀ rest, text.data = '/' :: rest →
        lookupCommand (buildCommandsDict metas)
            ((pySplit ' ' 2 (String.mk rest)).headI) = none →
        match_raw_text text metas = Except.ok none)
  ∧ (∀ rest ci, text.data = '/' :: rest →
        lookupCommand (buildCommandsDict metas)
            ((pySplit ' ' 2 (String.mk rest)).headI) = some ci →
        (∀ e, parse_command ci.config (argStringOf rest) = Except.error e →
            match_raw_text text metas = Except.error e)
        ∧ (∀ out, parse_command ci.config (argStringOf rest) = Except.ok out →
            match_raw_text text metas
                = Except.ok (some { ci with params := some out })
            ∧ out.error = false))
  ∧ (∀ cmd args out, parse_command cmd args = Except.ok out → out.error = false)
  ∧ (∀ cmd args, inModelScope cmd = true →
        cmd.opts.any (fun o => decide (o.short = "")) = true →
        parse_command cmd args = Except.error (PyErr.typeError
          "add_argument missing 1 required positional argument: dest")) := by
  refine ⟨?_, ?_, ?_,
    fun cmd args out h => parse_command_ok_error_false cmd args out h, ?_⟩
  · intro ch rest hdata hch
    unfold match_raw_text
    rw [hdata]
    simp only [matchRawChars]
    rw [if_pos hch]
  · intro rest hdata hlook
    unfold match_raw_text
    rw [hdata]
    simp only [matchRawChars]
    rw [if_neg (by simp : ¬ ('/' ≠ '/')), hlook]
  · intro rest ci hdata hlook
    have hbody : match_raw_text text metas =
        (match parse_command ci.config (argStringOf rest) with
          | Except.error e => Except.error e
          | Except.ok result =>
            Except.ok (some { ci with params := some result })) := by
      unfold match_raw_text
      rw [hdata]
      simp only [matchRawChars]
      rw [if_neg (by simp : ¬ ('/' ≠ '/')), hlook]
    constructor
    · intro e hp
      rw [hbody, hp]
    · intro out hp
      refine ⟨?_, parse_command_ok_error_false _ _ _ hp⟩
      rw [hbody, hp]
  · intro cmd args hscope hshort
    have hb : buildParser cmd = Except.error (PyErr.typeError
        "add_argument missing 1 required positional argument: dest") := by
      unfold buildParser
      cases harg : cmd.arg with
      | none => exact checkOpts_has_empty_short cmd.opts hshort
      | some a =>
        have hname : ¬ a.name = "" := by
          simp only [inModelScope, harg, Option.all_some, Bool.and_eq_true,
            decide_eq_true_eq] at hscope
          exact hscope.1.1.1.1
        simp [hname, checkOpts_has_empty_short cmd.opts hshort]
    unfold parse_command
    rw [hb]

/-- C6 amended witness: the spec's own examples plus the construction
failure.  With `Command{name:"set", arg:Argument{name:"key"}}`
registered, `/set foo` parses to `{error:false, params:{key:foo}}` and is
attached to the match; `/set` raises the required-argument InvalidInput
through the error() hook; `/unknown` and non-slash text yield no match;
and `cfgCmd` (one option, empty short) is in the modelled region and
raises TypeError on any input. -/
theorem c6_command_driver_witness :
    ("/set foo".data = '/' :: "set foo".data)
  ∧ parse_command setCmd (argStringOf ("set foo".data)) = Except.ok setOut
  ∧ (match_raw_text "/set foo" [setMeta]
        = Except.ok (some { setMeta with params := some setOut })
      ∧ setOut.error = false)
  ∧ match_raw_text "/set" [setMeta]
      = Except.error (PyErr.errMessage "the following arguments are required: key")
  ∧ match_raw_text "/unknown" [setMeta] = Except.ok none
  ∧ match_raw_text "hello" [setMeta] = Except.ok none
  ∧ (inModelScope cfgCmd = true
      ∧ parse_command cfgCmd "on" = Except.error (PyErr.typeError
          "add_argument missing 1 required positional argument: dest")) :=
  ⟨by decide, by decide,
    ((c6_command_driver [setMeta] "/set foo").2.2.1 ("set foo".data) setMeta
      (by decide) (by decide)).2 setOut (by decide),
    ((c6_command_driver [setMeta] "/set").2.2.1 ("set".data) setMeta
      (by decide) (by decide)).1 (PyErr.errMessage
        "the following arguments are required: key") (by decide),
    (c6_command_driver [setMeta] "/unknown").2.1 ("unknown".data)
      (by decide) (by decide),
    (c6_command_driver [setMeta] "hello").1 'h' ("ello".data)
      (by decide) (by decide),
    by decide,
    (c6_command_driver [cfgMeta] "/cfg on").2.2.2.2 cfgCmd "on"
      (by decide) (by decide)⟩

/-- Helper: the loop's outcome and its trace (up to the recorded
overflow booleans) are the same under any two `is_stackoverflow`
policies. -/
theorem runDominosLoop_overflow_irrel {E : Type} (run : Nat → Except E (Option Nat))
    (p q : Nat → Nat → Bool) :
    ∀ fuel op count,
      (runDominosLoop run p fuel op count).2 = (runDominosLoop run q fuel op count).2
    ∧ eraseOverflowBools (runDominosLoop run p fuel op count).1
        = eraseOverflowBools (runDominosLoop run q fuel op count).1 := by
  intro fuel
  induction fuel with
  | zero => intro op count; exact ⟨rfl, rfl⟩
  | succ n ih =>
    intro op count
    simp only [runDominosLoop]
    cases hr : run op with
    | error e => simp [eraseOverflowBools]
    | ok o =>
      cases o with
      | none => simp [eraseOverflowBools]
      | some op2 =>
        obtain ⟨h1, h2⟩ := ih op2 (count + 1)
        simp only [eraseOverflowBools, List.map_cons, List.map_append] at h2 ⊢
        exact ⟨h1, by rw [h2]⟩

/-- Helper: the loop body itself never records a save_trace event. -/
theorem runDominosLoop_no_saved {E : Type} (run : Nat → Except E (Option Nat))
    (p : Nat → Nat → Bool) :
    ∀ fuel op count,
      LoopEvent.savedTrace ∉ (runDominosLoop run p fuel op count).1 := by
  intro fuel
  induction fuel with
  | zero => intro op count; simp [runDominosLoop]
  | succ n ih =>
    intro op count
    simp only [runDominosLoop]
    cases hr : run op with
    | error e => simp
    | ok o =>
      cases o with
      | none => simp
      | some op2 => simp [ih op2 (count + 1)]

/-- Helper: each iteration appends `check, trace(op), run(op)` and, when
run did not raise, `destroy(op)`, so the loop trace followed by the final
save is well formed. -/
theorem runDominosLoop_wellFormed {E : Type} (run : Nat → Except E (Option Nat))
    (p : Nat → Nat → Bool) :
    ∀ fuel op count,
      wellFormedTrace ((runDominosLoop run p fuel op count).1
        ++ [LoopEvent.savedTrace]) = true := by
  intro fuel
  induction fuel with
  | zero => intro op count; simp [runDominosLoop, wellFormedTrace]
  | succ n ih =>
    intro op count
    simp only [runDominosLoop]
    cases hr : run op with
    | error e => simp [wellFormedTrace]
    | ok o =>
      cases o with
      | none => simp [wellFormedTrace]
      | some op2 => simp [wellFormedTrace, ih op2 (count + 1)]

/-- Helper: a raised outcome is exactly an operator's run raising, and it
leaves the loop unchanged. -/
theorem runDominosLoop_raised {E : Type} (run : Nat → Except E (Option Nat))
    (p : Nat → Nat → Bool) :
    ∀ fuel op count e,
      (runDominosLoop run p fuel op count).2 = LoopOutcome.raised e →
      ∃ k, run k = Except.error e := by
  intro fuel
  induction fuel with
  | zero => intro op count e h; simp [runDominosLoop] at h
  | succ n ih =>
    intro op count e h
    simp only [runDominosLoop] at h
    cases hr : run op with
    | error e2 =>
      rw [hr] at h
      simp only [LoopOutcome.raised.injEq] at h
      exact ⟨op, by rw [hr, h]⟩
    | ok o =>
      rw [hr] at h
      cases o with
      | none => simp at h
      | some op2 => exact ih op2 (count + 1) e h

/-- C7: `run_dominos` loop behaviour.  (1) The outcome and the trace
(modulo the recorded booleans) are identical under any two
`is_stackoverflow` policies — the overflow check never terminates the
loop; (2) `save_trace()` is recorded exactly once, as the final event, on
every exit — the raising exit included; (3) every iteration records
check, trace(op), run(op) and then destroy(op) unless that run raised
(the loop's continuation condition is solely the operator returned by
run); (4) a raised outcome is exactly some operator's run raising — the
exception leaves `run_dominos` unhandled. -/
theorem c7_run_dominos_round (E : Type) (run : Nat → Except E (Option Nat))
    (p q : Nat → Nat → Bool) (fuel op : Nat) :
    ((run_dominos run p fuel op).2 = (run_dominos run q fuel op).2
      ∧ eraseOverflowBools (run_dominos run p fuel op).1
          = eraseOverflowBools (run_dominos run q fuel op).1)
  ∧ (run_dominos run p fuel op).1.count LoopEvent.savedTrace = 1
  ∧ (run_dominos run p fuel op).1.getLast? = some LoopEvent.savedTrace
  ∧ wellFormedTrace (run_dominos run p fuel op).1 = true
  ∧ (∀ e, (run_dominos run p fuel op).2 = LoopOutcome.raised e →
      ∃ k, run k = Except.error e) := by
  obtain ⟨h1, h2⟩ := runDominosLoop_overflow_irrel run p q fuel op 0
  refine ⟨⟨h1, ?_⟩, ?_, ?_, ?_, ?_⟩
  · simp only [run_dominos, eraseOverflowBools, List.map_append] at h2 ⊢
    rw [h2]
  · have hno := runDominosLoop_no_saved run p fuel op 0
    simp only [run_dominos, List.count_append]
    rw [List.count_eq_zero.mpr hno]
    rfl
  · simp only [run_dominos]
    exact List.getLast?_concat _
  · exact runDominosLoop_wellFormed run p fuel op 0
  · intro e h
    exact runDominosLoop_raised run p fuel op 0 e h

/-- C7 witness: a concrete two-operator round under two different
overflow policies. -/
theorem c7_run_dominos_round_witness :
    (run_dominos exRun (fun _ _ => true) 5 0).2
        = (run_dominos exRun (fun _ _ => false) 5 0).2
  ∧ (run_dominos exRun (fun _ _ => true) 5 0).1.count LoopEvent.savedTrace = 1
  ∧ wellFormedTrace (run_dominos exRun (fun _ _ => true) 5 0).1 = true :=
  ⟨(c7_run_dominos_round Nat exRun (fun _ _ => true) (fun _ _ => false) 5 0).1.1,
    (c7_run_dominos_round Nat exRun (fun _ _ => true) (fun _ _ => false) 5 0).2.1,
    (c7_run_dominos_round Nat exRun (fun _ _ => true) (fun _ _ => false) 5 0).2.2.2.1⟩

/-- Helper: with a spent split budget, `split` consumes the rest as one
segment. -/
theorem pySplitGo_zero (sep : Char) :
    ∀ (cs acc : List Char), pySplitGo sep cs 0 acc = [acc.reverse ++ cs] := by
  intro cs
  induction cs with
  | nil => intro acc; simp [pySplitGo]
  | cons c cs ih =>
    intro acc
    by_cases h : c = sep <;> simp [pySplitGo, h, ih]

/-- Helper: a separator-free remainder is one segment. -/
theorem pySplitGo_nosep (sep : Char) :
    ∀ (cs : List Char), sep ∉ cs →
      ∀ m acc, pySplitGo sep cs m acc = [acc.reverse ++ cs] := by
  intro cs
  induction cs with
  | nil => intro _ m acc; simp [pySplitGo]
  | cons c cs ih =>
    intro h m acc
    have hc : ¬ c = sep := fun he => h (by rw [he]; exact List.mem_cons_self _ _)
    have h2 : sep ∉ cs := fun hm => h (List.mem_cons_of_mem _ hm)
    cases m <;> simp [pySplitGo, hc, ih h2, pySplitGo_zero]

/-- Helper: a separator after a separator-free block splits there and
spends one unit of budget. -/
theorem pySplitGo_split (sep : Char) :
    ∀ (cs : List Char), sep ∉ cs →
      ∀ rest m acc,
        pySplitGo sep (cs ++ sep :: rest) (m + 1) acc
          = (acc.reverse ++ cs) :: pySplitGo sep rest m [] := by
  intro cs
  induction cs with
  | nil => intro _ rest m acc; simp [pySplitGo]
  | cons c cs ih =>
    intro h rest m acc
    have hc : ¬ c = sep := fun he => h (by rw [he]; exact List.mem_cons_self _ _)
    have h2 : sep ∉ cs := fun hm => h (List.mem_cons_of_mem _ hm)
    simp [pySplitGo, hc, ih h2]

/-- Helper: `split(' ', 2)` of `n s1 rest2` (space-free n, s1) is the
three segments. -/
theorem pySplit_two_seps (n s1 rest : List Char)
    (hn : ' ' ∉ n) (hs : ' ' ∉ s1) :
    pySplit ' ' 2 (String.mk (n ++ ' ' :: (s1 ++ ' ' :: rest)))
      = [String.mk n, String.mk s1, String.mk rest] := by
  unfold pySplit
  rw [show (String.mk (n ++ ' ' :: (s1 ++ ' ' :: rest))).data
      = n ++ ' ' :: (s1 ++ ' ' :: rest) from rfl]
  rw [pySplitGo_split ' ' n hn, pySplitGo_split ' ' s1 hs, pySplitGo_zero]
  simp

/-- Helper: `split(' ', 2)` of `n s1` (space-free n, s1) is the two
segments. -/
theorem pySplit_one_sep (n s1 : List Char) (hn : ' ' ∉ n) (hs : ' ' ∉ s1) :
    pySplit ' ' 2 (String.mk (n ++ ' ' :: s1)) = [String.mk n, String.mk s1] := by
  unfold pySplit
  rw [show (String.mk (n ++ ' ' :: s1)).data = n ++ ' ' :: s1 from rfl]
  rw [pySplitGo_split ' ' n hn, pySplitGo_nosep ' ' s1 hs]
  simp

/-- C9: `match_raw_text` on `/<n> <s1> <rest>` (n and s1 space-free)
behaves exactly as on `/<n> <s1>`: the split-limit of two means only the
stripped first post-command segment reaches the argument parser, and
everything after the second space is silently discarded — it is neither
parsed into params nor reported as an error, whatever it contains. -/
theorem c9_text_after_second_space_discarded (metas : List CommandIntention)
    (n s1 rest : String) (hn : ' ' ∉ n.data) (hs : ' ' ∉ s1.data) :
    match_raw_text ("/" ++ n ++ " " ++ s1 ++ " " ++ rest) metas
      = match_raw_text ("/" ++ n ++ " " ++ s1) metas := by
  have hd1 : ("/" ++ n ++ " " ++ s1 ++ " " ++ rest).data
      = '/' :: (n.data ++ ' ' :: (s1.data ++ ' ' :: rest.data)) := by
    simp [String.data_append]
  have hd2 : ("/" ++ n ++ " " ++ s1).data = '/' :: (n.data ++ ' ' :: s1.data) := by
    simp [String.data_append]
  have hargL : argStringOf (n.data ++ ' ' :: (s1.data ++ ' ' :: rest.data))
      = pyStrip (String.mk s1.data) := by
    simp only [argStringOf, pySplit_two_seps n.data s1.data rest.data hn hs]
    simp
  have hargR : argStringOf (n.data ++ ' ' :: s1.data) = pyStrip (String.mk s1.data) := by
    simp only [argStringOf, pySplit_one_sep n.data s1.data hn hs]
    simp
  unfold match_raw_text
  rw [hd1, hd2]
  simp only [matchRawChars]
  rw [if_neg (by simp : ¬ ('/' ≠ '/')), if_neg (by simp : ¬ ('/' ≠ '/'))]
  rw [pySplit_two_seps n.data s1.data rest.data hn hs,
    pySplit_one_sep n.data s1.data hn hs, hargL, hargR]
  simp [List.headI]

/-- C9 witness: `/set a b` matches exactly as `/set a` does — the token
`b` is dropped without being parsed or reported. -/
theorem c9_discard_witness :
    (' ' ∉ "set".data) ∧ (' ' ∉ "a".data)
  ∧ ("/" ++ "set" ++ " " ++ "a" ++ " " ++ "b") = "/set a b"
  ∧ ("/" ++ "set" ++ " " ++ "a") = "/set a"
  ∧ match_raw_text ("/" ++ "set" ++ " " ++ "a" ++ " " ++ "b") [setMeta]
      = match_raw_text ("/" ++ "set" ++ " " ++ "a") [setMeta] :=
  ⟨by decide, by decide, by decide, by decide,
    c9_text_after_second_space_discarded [setMeta] "set" "a" "b"
      (by decide) (by decide)⟩

end Ghoshell
